import Mathlib

/-!
Shallow embedding of `pkg/controller/certificaterequests/selfsigned/selfsigned.go`
(the self-signed certificate-request issuer of cert-manager) and proofs about it.

The unit under study is the method `SelfSigned.Sign`.  Its collaborators
(`kube.SecretTLSKey`, `pki.GenerateTemplateFromCertificateRequest`,
`pki.PublicKeyForPrivateKey`, `pki.PublicKeysEqual`, the injected `signingFn`,
and `issuerOptions.ResourceNamespace`) live outside the file under study and
are modelled as fields of an explicit environment record `Env`, so that `Sign`
becomes a pure function of the environment and its inputs.  Side effects
(`reporter.Failed`, `reporter.Pending`, `recorder.Event`) are modelled by
returning the list of reports and events an invocation performs.  The ambient
nondeterminism of real signing (random serial numbers, wall clock) is modelled
by threading an explicit `seed` argument to the signing strategy.
-/

set_option autoImplicit false

namespace SelfSignedIssuer

/-- Encoded certificate bytes (the `[]byte` PEM output of signing). -/
abbrev Bytes := List Nat

/-- Go `error` values, modelled by their message string. -/
abbrev GoErr := String

/-- The well-known key `cmapi.CertificateRequestPrivateKeyAnnotationKey` looked
up in the request's metadata. -/
def certificateRequestPrivateKeyAnnotationKey : String :=
  "cert-manager.io/private-key-secret-name"

/-- The constant `emptyDNMessage` from the source. -/
def emptyDNMessage : String :=
  "Certificate will be issued with an empty Issuer DN, which contravenes RFC 5280 and could break some strict clients"

/-- A `cmapi.CertificateRequest` restricted to the fields `Sign` reads
directly: its namespace (`cr.Namespace`) and its metadata key/value pairs
(`cr.ObjectMeta.Annotations`), modelled as an association list.  The PKCS#10
payload is consumed only by the injected template builder. -/
structure CertificateRequest where
  ns : String
  annots : List (String × String)
  deriving DecidableEq, Repr

/-- Map lookup in the request metadata: Go `cr.ObjectMeta.Annotations[k]`
returns the zero value `""` together with `ok = false` when the key is absent,
and `Sign` treats `!ok || secretName == ""` as one condition, so the lookup is
modelled directly as value-or-empty-string. -/
def CertificateRequest.annotValue (cr : CertificateRequest) (k : String) : String :=
  (((cr.annots.find? (fun p => p.1 == k)).map Prod.snd).getD "")

/-- The secret name `Sign` extracts from the request. -/
def secretNameOf (cr : CertificateRequest) : String :=
  cr.annotValue certificateRequestPrivateKeyAnnotationKey

/-- The `SelfSigned` stanza of the issuer spec, with its
`CRLDistributionPoints` list. -/
structure SelfSignedSpec where
  crlDistributionPoints : List String
  deriving DecidableEq, Repr

/-- A `cmapi.GenericIssuer` restricted to what `Sign` reads:
`issuerObj.GetSpec().SelfSigned`. -/
structure GenericIssuer where
  selfSigned : SelfSignedSpec
  deriving DecidableEq, Repr

/-- An `x509.Certificate` template restricted to the fields `Sign` reads or
writes: the serialized subject distinguished name (`template.Subject.String()`),
the declared public key (`template.PublicKey`, modelled opaquely as a string),
and `template.CRLDistributionPoints`. -/
structure Template where
  subjectString : String
  publicKey : String
  crlDistributionPoints : List String
  deriving DecidableEq, Repr

/-- Result of `kube.SecretTLSKey` as classified by `Sign`: the three disjoint
error classes it distinguishes (`k8sErrors.IsNotFound`,
`cmerrors.IsInvalidData`, any other non-nil error) or a resolved private key
(modelled opaquely as a string handle). -/
inductive KeyLookup where
  | ok (key : String)
  | notFound (e : GoErr)
  | invalidData (e : GoErr)
  | otherErr (e : GoErr)
  deriving DecidableEq, Repr

/-- A call to `crutil.Reporter`: `reporter.Failed(cr, err, reason, message)` or
`reporter.Pending(cr, err, reason, message)`.  The `ready` constructor stands
for the Ready condition the surrounding controller records on success (see
`signAndReport`). -/
inductive Report where
  | failed (reason message : String) (err : GoErr)
  | pending (reason message : String) (err : GoErr)
  | ready
  deriving DecidableEq, Repr

/-- A call to `recorder.Event(cr, etype, reason, message)`. -/
structure Event where
  etype : String
  reason : String
  message : String
  deriving DecidableEq, Repr

/-- The `issuer.IssueResponse` built on success: `Certificate` and `CA`. -/
structure IssueResponse where
  certificate : Bytes
  ca : Bytes
  deriving DecidableEq, Repr

/-- Everything one invocation of `Sign` produces: the Go return pair
`(*issuer.IssueResponse, error)` plus the reporter calls and recorder events it
performed, in order. -/
structure SignResult where
  response : Option IssueResponse
  callerErr : Option GoErr
  reports : List Report
  events : List Event
  deriving DecidableEq, Repr

/-- The collaborators of `SelfSigned`, injected explicitly.  `signingFn` takes
a `seed` modelling the ambient nondeterminism (random serials, clock) of real
signing; its remaining arguments are the Go strategy's
`(issuerTemplate, subjectTemplate, publicKey, privateKey)`, and it returns the
encoded bytes (the parsed certificate the Go strategy also returns is
discarded by `Sign` and omitted). -/
structure Env where
  resourceNamespace : GenericIssuer → String
  secretTLSKey : String → String → KeyLookup
  generateTemplateFromCertificateRequest : CertificateRequest → Except GoErr Template
  publicKeyForPrivateKey : String → Except GoErr String
  publicKeysEqual : String → String → Bool × Option GoErr

  signingFn : Nat → Template → Template → String → String → Except GoErr Bytes

/-- The template-construction portion of `Sign`:
`pki.GenerateTemplateFromCertificateRequest(cr)` immediately followed by
`template.CRLDistributionPoints = issuerObj.GetSpec().SelfSigned.CRLDistributionPoints`. -/
def buildTemplate (env : Env) (cr : CertificateRequest) (issuerObj : GenericIssuer) :
    Except GoErr Template :=
  match env.generateTemplateFromCertificateRequest cr with
  | .error e => .error e
  | .ok t => .ok { t with crlDistributionPoints := issuerObj.selfSigned.crlDistributionPoints }

/-- The recorder events emitted between template construction and public-key
extraction: one warning event when `template.Subject.String()` is empty,
nothing otherwise.  Every path of `Sign` reached after that point carries
these events. -/
def warnEvents (template : Template) : List Event :=
  if template.subjectString = "" then
    [{ etype := "Warning", reason := "BadConfig", message := emptyDNMessage }]
  else []

/-- The body of `SelfSigned.Sign`, step for step.  Each early `return` of the
Go code becomes a `SignResult` carrying the single report of that path; the
warning event for an empty subject DN is accumulated and carried by every
later path. -/
def Sign (env : Env) (seed : Nat) (cr : CertificateRequest) (issuerObj : GenericIssuer) :
    SignResult :=
  if secretNameOf cr = "" then
    { response := none, callerErr := none,
      reports := [.failed "MissingAnnotation"
        ("Annotation \"" ++ certificateRequestPrivateKeyAnnotationKey ++ "\" missing or reference empty")
        "secret name missing"],
      events := [] }
  else
    match env.secretTLSKey cr.ns (secretNameOf cr) with
    | .notFound e =>
      { response := none, callerErr := none,
        reports := [.pending "MissingSecret"
          ("Referenced secret " ++ cr.ns ++ "/" ++ secretNameOf cr ++ " not found") e],
        events := [] }
    | .invalidData e =>
      { response := none, callerErr := none,
        reports := [.pending "ErrorParsingKey"
          ("Failed to get key \"" ++ secretNameOf cr ++ "\" referenced in annotation \""
            ++ certificateRequestPrivateKeyAnnotationKey ++ "\"") e],
        events := [] }
    | .otherErr e =>
      { response := none, callerErr := some e,
        reports := [.pending "ErrorGettingSecret"
          ("Failed to get certificate key pair from secret "
            ++ env.resourceNamespace issuerObj ++ "/" ++ secretNameOf cr) e],
        events := [] }
    | .ok privatekey =>
      match buildTemplate env cr issuerObj with
      | .error e =>
        { response := none, callerErr := none,
          reports := [.failed "ErrorGenerating" "Error generating certificate template" e],
          events := [] }
      | .ok template =>
        match env.publicKeyForPrivateKey privatekey with
        | .error e =>
          { response := none, callerErr := none,
            reports := [.failed "ErrorPublicKey" "Failed to get public key from private key" e],
            events := warnEvents template }
        | .ok publickey =>
          if (env.publicKeysEqual publickey template.publicKey).2.isSome
              || !(env.publicKeysEqual publickey template.publicKey).1 then
            { response := none, callerErr := none,
              reports := [.failed "ErrorKeyMatch" "Error generating certificate template"
                ((env.publicKeysEqual publickey template.publicKey).2.getD
                  "CSR not signed by referenced private key")],
              events := warnEvents template }
          else
            match env.signingFn seed template template publickey privatekey with
            | .error e =>
              { response := none, callerErr := none,
                reports := [.failed "ErrorSigning" "Error signing certificate" e],
                events := warnEvents template }
            | .ok certPem =>
              { response := some { certificate := certPem, ca := certPem },
                callerErr := none, reports := [], events := warnEvents template }

/-- Modelled from the spec: the Ready condition recorded after a successful
issuance is written by the surrounding certificaterequests controller, which
is not part of the file under study.  Per the spec, "On success, package the
signed bytes as both `certificate` and `certificateAuthority` fields of the
result; report `Ready`."  This wrapper composes `Sign` with that report. -/
def signAndReport (env : Env) (seed : Nat) (cr : CertificateRequest)
    (issuerObj : GenericIssuer) : SignResult :=
  let r := Sign env seed cr issuerObj
  if r.response.isSome then { r with reports := r.reports ++ [.ready] } else r

/-- A signing strategy is deterministic when its output does not depend on the
ambient-nondeterminism seed. -/
def DeterministicSigning
    (fn : Nat → Template → Template → String → String → Except GoErr Bytes) : Prop :=
  ∀ s s' ti ts pk k, fn s ti ts pk k = fn s' ti ts pk k

end SelfSignedIssuer

namespace SelfSignedIssuer

/-! Concrete fixtures used to witness the theorems below. -/

/-- A request carrying the private-key annotation. -/
def cr1 : CertificateRequest :=
  { ns := "default",
    annots := [(certificateRequestPrivateKeyAnnotationKey, "my-key")] }

/-- A request with no metadata at all. -/
def crNoAnnot : CertificateRequest := { ns := "default", annots := [] }

/-- A request whose private-key annotation maps to the empty string. -/
def crEmptyAnnot : CertificateRequest :=
  { ns := "default", annots := [(certificateRequestPrivateKeyAnnotationKey, "")] }

/-- An issuer whose self-signed spec carries one CRL distribution point. -/
def iss1 : GenericIssuer := { selfSigned := { crlDistributionPoints := ["https://crl.example.com"] } }

/-- An environment in which every collaborator succeeds and the signing
strategy is a deterministic constant. -/
def okEnv : Env :=
  { resourceNamespace := fun _ => "cert-manager",
    secretTLSKey := fun _ _ => .ok "priv",
    generateTemplateFromCertificateRequest := fun _ =>
      .ok { subjectString := "CN=example", publicKey := "pub", crlDistributionPoints := [] },
    publicKeyForPrivateKey := fun _ => .ok "pub",
    publicKeysEqual := fun a b => (a == b, none),
    signingFn := fun _ _ _ _ _ => .ok [1, 2, 3] }

/-- Like `okEnv` but the generated template has an empty subject DN and the
signing strategy fails. -/
def emptyDNSignFailEnv : Env :=
  { okEnv with
    generateTemplateFromCertificateRequest := fun _ =>
      .ok { subjectString := "", publicKey := "pub", crlDistributionPoints := [] },
    signingFn := fun _ _ _ _ _ => .error "rand failure" }

/-- Like `okEnv` but the generated template has an empty subject DN and its
declared public key does not match the one derived from the private key; the
comparator reports the mismatch with no underlying error. -/
def emptyDNMismatchEnv : Env :=
  { okEnv with
    generateTemplateFromCertificateRequest := fun _ =>
      .ok { subjectString := "", publicKey := "otherpub", crlDistributionPoints := [] } }

/-- Like `okEnv` but the generated template has an empty subject DN;
every collaborator succeeds. -/
def emptyDNOkEnv : Env :=
  { okEnv with
    generateTemplateFromCertificateRequest := fun _ =>
      .ok { subjectString := "", publicKey := "pub", crlDistributionPoints := [] } }

/-- Like `okEnv` but the referenced secret does not exist. -/
def notFoundEnv : Env :=
  { okEnv with secretTLSKey := fun _ _ => .notFound "secret not found" }

/-- Like `okEnv` but the secret's key data is malformed. -/
def invalidDataEnv : Env :=
  { okEnv with secretTLSKey := fun _ _ => .invalidData "bad pem block" }

/-- Like `okEnv` but key resolution fails with a transient error. -/
def netErrEnv : Env :=
  { okEnv with secretTLSKey := fun _ _ => .otherErr "connection refused" }

/-- Like `okEnv` but template generation fails. -/
def genFailEnv : Env :=
  { okEnv with generateTemplateFromCertificateRequest := fun _ => .error "bad csr" }

/-- The warning event `Sign` emits for an empty subject DN. -/
def badConfigEvent : Event :=
  { etype := "Warning", reason := "BadConfig", message := emptyDNMessage }

end SelfSignedIssuer

namespace SelfSignedIssuer

/-- C1: whenever `Sign` returns a non-nil issuance result, the result's
certificate field and its CA field are the same byte sequence (the code
assigns the one `certPem` value to both). -/
theorem sign_self_signed (env : Env) (seed : Nat) (cr : CertificateRequest)
    (issuerObj : GenericIssuer) (r : IssueResponse)
    (h : (Sign env seed cr issuerObj).response = some r) :
    r.certificate = r.ca := by
  unfold Sign at h
  repeat' split at h
  all_goals (try simp_all)
  all_goals (subst h; rfl)

/-- C1 witness: a concrete fully-successful invocation, at which the theorem
applies. -/
theorem sign_self_signed_witness :
    (Sign okEnv 0 cr1 iss1).response = some { certificate := [1,2,3], ca := [1,2,3] } ∧
    ([1,2,3] : Bytes) = [1,2,3] :=
  ⟨by decide, sign_self_signed okEnv 0 cr1 iss1 { certificate := [1,2,3], ca := [1,2,3] } (by decide)⟩

end SelfSignedIssuer

namespace SelfSignedIssuer

/-! Branch-evaluation lemmas: the value of `Sign` on each path of the Go
function, under the hypotheses that select the path.  They are shared by the
claim theorems below. -/

/-- Value of `Sign` on the missing/empty-annotation path. -/
theorem sign_eq_missingAnnot (env : Env) (seed : Nat) (cr : CertificateRequest)
    (issuerObj : GenericIssuer) (hs : secretNameOf cr = "") :
    Sign env seed cr issuerObj =
      { response := none, callerErr := none,
        reports := [.failed "MissingAnnotation"
          ("Annotation \"" ++ certificateRequestPrivateKeyAnnotationKey ++ "\" missing or reference empty")
          "secret name missing"],
        events := [] } := by
  simp [Sign, hs]

/-- Value of `Sign` when the referenced secret is not found. -/
theorem sign_eq_notFound (env : Env) (seed : Nat) (cr : CertificateRequest)
    (issuerObj : GenericIssuer) (e : GoErr) (hs : secretNameOf cr ≠ "")
    (hk : env.secretTLSKey cr.ns (secretNameOf cr) = .notFound e) :
    Sign env seed cr issuerObj =
      { response := none, callerErr := none,
        reports := [.pending "MissingSecret"
          ("Referenced secret " ++ cr.ns ++ "/" ++ secretNameOf cr ++ " not found") e],
        events := [] } := by
  simp [Sign, hs, hk]

/-- Value of `Sign` when the secret's key data is malformed. -/
theorem sign_eq_invalidData (env : Env) (seed : Nat) (cr : CertificateRequest)
    (issuerObj : GenericIssuer) (e : GoErr) (hs : secretNameOf cr ≠ "")
    (hk : env.secretTLSKey cr.ns (secretNameOf cr) = .invalidData e) :
    Sign env seed cr issuerObj =
      { response := none, callerErr := none,
        reports := [.pending "ErrorParsingKey"
          ("Failed to get key \"" ++ secretNameOf cr ++ "\" referenced in annotation \""
            ++ certificateRequestPrivateKeyAnnotationKey ++ "\"") e],
        events := [] } := by
  simp [Sign, hs, hk]

/-- Value of `Sign` when key resolution fails with any other error. -/
theorem sign_eq_otherErr (env : Env) (seed : Nat) (cr : CertificateRequest)
    (issuerObj : GenericIssuer) (e : GoErr) (hs : secretNameOf cr ≠ "")
    (hk : env.secretTLSKey cr.ns (secretNameOf cr) = .otherErr e) :
    Sign env seed cr issuerObj =
      { response := none, callerErr := some e,
        reports := [.pending "ErrorGettingSecret"
          ("Failed to get certificate key pair from secret "
            ++ env.resourceNamespace issuerObj ++ "/" ++ secretNameOf cr) e],
        events := [] } := by
  simp [Sign, hs, hk]

/-- Value of `Sign` when template generation fails. -/
theorem sign_eq_genFail (env : Env) (seed : Nat) (cr : CertificateRequest)
    (issuerObj : GenericIssuer) (k : String) (e : GoErr) (hs : secretNameOf cr ≠ "")
    (hk : env.secretTLSKey cr.ns (secretNameOf cr) = .ok k)
    (ht : buildTemplate env cr issuerObj = .error e) :
    Sign env seed cr issuerObj =
      { response := none, callerErr := none,
        reports := [.failed "ErrorGenerating" "Error generating certificate template" e],
        events := [] } := by
  simp [Sign, hs, hk, ht]

/-- Value of `Sign` when public-key extraction fails. -/
theorem sign_eq_pubKeyFail (env : Env) (seed : Nat) (cr : CertificateRequest)
    (issuerObj : GenericIssuer) (k : String) (t : Template) (e : GoErr)
    (hs : secretNameOf cr ≠ "")
    (hk : env.secretTLSKey cr.ns (secretNameOf cr) = .ok k)
    (ht : buildTemplate env cr issuerObj = .ok t)
    (hp : env.publicKeyForPrivateKey k = .error e) :
    Sign env seed cr issuerObj =
      { response := none, callerErr := none,
        reports := [.failed "ErrorPublicKey" "Failed to get public key from private key" e],
        events := warnEvents t } := by
  simp [Sign, hs, hk, ht, hp]

/-- Value of `Sign` when the derived public key fails to match the template's
declared public key (or the comparison itself errors). -/
theorem sign_eq_keyMismatch (env : Env) (seed : Nat) (cr : CertificateRequest)
    (issuerObj : GenericIssuer) (k : String) (t : Template) (pk : String)
    (hs : secretNameOf cr ≠ "")
    (hk : env.secretTLSKey cr.ns (secretNameOf cr) = .ok k)
    (ht : buildTemplate env cr issuerObj = .ok t)
    (hp : env.publicKeyForPrivateKey k = .ok pk)
    (hmm : (env.publicKeysEqual pk t.publicKey).2.isSome = true ∨
           (env.publicKeysEqual pk t.publicKey).1 = false) :
    Sign env seed cr issuerObj =
      { response := none, callerErr := none,
        reports := [.failed "ErrorKeyMatch" "Error generating certificate template"
          ((env.publicKeysEqual pk t.publicKey).2.getD
            "CSR not signed by referenced private key")],
        events := warnEvents t } := by
  simp only [Sign, hs, hk, ht, hp]
  simp [hmm]

/-- Value of `Sign` when the keys match but signing fails. -/
theorem sign_eq_signFail (env : Env) (seed : Nat) (cr : CertificateRequest)
    (issuerObj : GenericIssuer) (k : String) (t : Template) (pk : String) (e : GoErr)
    (hs : secretNameOf cr ≠ "")
    (hk : env.secretTLSKey cr.ns (secretNameOf cr) = .ok k)
    (ht : buildTemplate env cr issuerObj = .ok t)
    (hp : env.publicKeyForPrivateKey k = .ok pk)
    (heq : env.publicKeysEqual pk t.publicKey = (true, none))
    (hsig : env.signingFn seed t t pk k = .error e) :
    Sign env seed cr issuerObj =
      { response := none, callerErr := none,
        reports := [.failed "ErrorSigning" "Error signing certificate" e],
        events := warnEvents t } := by
  simp [Sign, hs, hk, ht, hp, heq, hsig]

/-- Value of `Sign` on the fully successful path. -/
theorem sign_eq_success (env : Env) (seed : Nat) (cr : CertificateRequest)
    (issuerObj : GenericIssuer) (k : String) (t : Template) (pk : String) (b : Bytes)
    (hs : secretNameOf cr ≠ "")
    (hk : env.secretTLSKey cr.ns (secretNameOf cr) = .ok k)
    (ht : buildTemplate env cr issuerObj = .ok t)
    (hp : env.publicKeyForPrivateKey k = .ok pk)
    (heq : env.publicKeysEqual pk t.publicKey = (true, none))
    (hsig : env.signingFn seed t t pk k = .ok b) :
    Sign env seed cr issuerObj =
      { response := some { certificate := b, ca := b }, callerErr := none,
        reports := [], events := warnEvents t } := by
  simp [Sign, hs, hk, ht, hp, heq, hsig]

/-- Once the private key has resolved, no path of `Sign` returns a
caller-visible error. -/
theorem sign_callerErr_none_of_ok (env : Env) (seed : Nat) (cr : CertificateRequest)
    (issuerObj : GenericIssuer) (k : String) (hs : secretNameOf cr ≠ "")
    (hk : env.secretTLSKey cr.ns (secretNameOf cr) = .ok k) :
    (Sign env seed cr issuerObj).callerErr = none := by
  simp only [Sign, hs, hk]
  repeat' split
  all_goals simp [hs]

end SelfSignedIssuer

namespace SelfSignedIssuer

/-- C2: `Sign` surfaces a caller-visible error exactly when key resolution
fails with an error that is neither not-found nor malformed data (the
ErrorGettingSecret class, reported Pending with the underlying error
returned for backoff); not-found yields Pending MissingSecret with nil
error and malformed key data yields Pending ErrorParsingKey with nil error. -/
theorem sign_error_propagation (env : Env) (seed : Nat) (cr : CertificateRequest)
    (issuerObj : GenericIssuer) :
    ((Sign env seed cr issuerObj).callerErr ≠ none ↔
      secretNameOf cr ≠ "" ∧
        ∃ e, env.secretTLSKey cr.ns (secretNameOf cr) = KeyLookup.otherErr e) ∧
    (∀ e, secretNameOf cr ≠ "" →
      env.secretTLSKey cr.ns (secretNameOf cr) = KeyLookup.otherErr e →
      (Sign env seed cr issuerObj).response = none ∧
      (Sign env seed cr issuerObj).callerErr = some e ∧
      (Sign env seed cr issuerObj).reports =
        [Report.pending "ErrorGettingSecret"
          ("Failed to get certificate key pair from secret "
            ++ env.resourceNamespace issuerObj ++ "/" ++ secretNameOf cr) e]) ∧
    (∀ e, secretNameOf cr ≠ "" →
      env.secretTLSKey cr.ns (secretNameOf cr) = KeyLookup.notFound e →
      (Sign env seed cr issuerObj).response = none ∧
      (Sign env seed cr issuerObj).callerErr = none ∧
      (Sign env seed cr issuerObj).reports =
        [Report.pending "MissingSecret"
          ("Referenced secret " ++ cr.ns ++ "/" ++ secretNameOf cr ++ " not found") e]) ∧
    (∀ e, secretNameOf cr ≠ "" →
      env.secretTLSKey cr.ns (secretNameOf cr) = KeyLookup.invalidData e →
      (Sign env seed cr issuerObj).response = none ∧
      (Sign env seed cr issuerObj).callerErr = none ∧
      (Sign env seed cr issuerObj).reports =
        [Report.pending "ErrorParsingKey"
          ("Failed to get key \"" ++ secretNameOf cr ++ "\" referenced in annotation \""
            ++ certificateRequestPrivateKeyAnnotationKey ++ "\"") e]) := by
  refine ⟨⟨?_, ?_⟩, ?_, ?_, ?_⟩
  · intro hne
    by_cases hs : secretNameOf cr = ""
    · rw [sign_eq_missingAnnot env seed cr issuerObj hs] at hne
      simp at hne
    · refine ⟨hs, ?_⟩
      rcases hkl : env.secretTLSKey cr.ns (secretNameOf cr) with k | e | e | e
      · exact absurd (sign_callerErr_none_of_ok env seed cr issuerObj k hs hkl) hne
      · rw [sign_eq_notFound env seed cr issuerObj e hs hkl] at hne
        simp at hne
      · rw [sign_eq_invalidData env seed cr issuerObj e hs hkl] at hne
        simp at hne
      · exact ⟨e, rfl⟩
  · rintro ⟨hs, e, hkl⟩
    rw [sign_eq_otherErr env seed cr issuerObj e hs hkl]
    simp
  · intro e hs hkl
    rw [sign_eq_otherErr env seed cr issuerObj e hs hkl]
    exact ⟨rfl, rfl, rfl⟩
  · intro e hs hkl
    rw [sign_eq_notFound env seed cr issuerObj e hs hkl]
    exact ⟨rfl, rfl, rfl⟩
  · intro e hs hkl
    rw [sign_eq_invalidData env seed cr issuerObj e hs hkl]
    exact ⟨rfl, rfl, rfl⟩

/-- C2 witness: the three key-resolution failure classes at concrete inputs. -/
theorem sign_error_propagation_witness :
    (Sign netErrEnv 0 cr1 iss1).callerErr = some "connection refused" ∧
    (Sign notFoundEnv 0 cr1 iss1).callerErr = none ∧
    (Sign invalidDataEnv 0 cr1 iss1).callerErr = none :=
  ⟨((sign_error_propagation netErrEnv 0 cr1 iss1).2.1 "connection refused" (by decide) rfl).2.1,
   ((sign_error_propagation notFoundEnv 0 cr1 iss1).2.2.1 "secret not found" (by decide) rfl).2.1,
   ((sign_error_propagation invalidDataEnv 0 cr1 iss1).2.2.2 "bad pem block" (by decide) rfl).2.1⟩

/-- C4: a request whose private-key annotation is absent or empty always
yields the FailedTerminal MissingAnnotation report with a nil result and nil
error, and the outcome is independent of every collaborator, the seed, and
the issuer (no key resolution, template building or signing is consulted). -/
theorem sign_missing_annot_terminal (env env' : Env) (seed seed' : Nat)
    (cr : CertificateRequest) (issuerObj issuerObj' : GenericIssuer)
    (hs : secretNameOf cr = "") :
    Sign env seed cr issuerObj =
      { response := none, callerErr := none,
        reports := [Report.failed "MissingAnnotation"
          ("Annotation \"" ++ certificateRequestPrivateKeyAnnotationKey ++ "\" missing or reference empty")
          "secret name missing"],
        events := [] } ∧
    Sign env seed cr issuerObj = Sign env' seed' cr issuerObj' := by
  have h1 := sign_eq_missingAnnot env seed cr issuerObj hs
  have h2 := sign_eq_missingAnnot env' seed' cr issuerObj' hs
  exact ⟨h1, h1.trans h2.symm⟩

/-- C4 witness: an annotation-free request and an empty-valued annotation, at
which the outcome is the MissingAnnotation report whatever the environment. -/
theorem sign_missing_annot_terminal_witness :
    secretNameOf crNoAnnot = "" ∧ secretNameOf crEmptyAnnot = "" ∧
    Sign okEnv 0 crNoAnnot iss1 = Sign netErrEnv 7 crNoAnnot iss1 ∧
    (Sign okEnv 0 crEmptyAnnot iss1).reports =
      [Report.failed "MissingAnnotation"
        ("Annotation \"" ++ certificateRequestPrivateKeyAnnotationKey ++ "\" missing or reference empty")
        "secret name missing"] :=
  ⟨by decide, by decide,
   (sign_missing_annot_terminal okEnv netErrEnv 0 7 crNoAnnot iss1 iss1 (by decide)).2,
   by rw [(sign_missing_annot_terminal okEnv okEnv 0 0 crEmptyAnnot iss1 iss1 (by decide)).1]⟩

/-- C7: whenever template construction succeeds, the produced template's CRL
distribution points are exactly the issuer config's list, obtained by
overriding that one field of the base template derived from the request. -/
theorem template_crl_override (env : Env) (cr : CertificateRequest)
    (issuerObj : GenericIssuer) (t : Template)
    (h : buildTemplate env cr issuerObj = .ok t) :
    t.crlDistributionPoints = issuerObj.selfSigned.crlDistributionPoints ∧
    (∀ base, env.generateTemplateFromCertificateRequest cr = Except.ok base →
      t = { base with
              crlDistributionPoints := issuerObj.selfSigned.crlDistributionPoints }) := by
  rcases hg : env.generateTemplateFromCertificateRequest cr with e | base
  · simp [buildTemplate, hg] at h
  · simp only [buildTemplate, hg, Except.ok.injEq] at h
    subst h
    refine ⟨rfl, ?_⟩
    intro base' hb
    cases hb
    rfl

/-- C7 witness: the issuer's CRL list overrides the empty request-derived
list at a concrete input. -/
theorem template_crl_override_witness :
    (Template.mk "CN=example" "pub" ["https://crl.example.com"]).crlDistributionPoints =
      iss1.selfSigned.crlDistributionPoints ∧
    buildTemplate okEnv cr1 iss1 =
      Except.ok (Template.mk "CN=example" "pub" ["https://crl.example.com"]) :=
  ⟨(template_crl_override okEnv cr1 iss1
      (Template.mk "CN=example" "pub" ["https://crl.example.com"]) rfl).1,
   rfl⟩

end SelfSignedIssuer

namespace SelfSignedIssuer

/-- Shape lemma: every invocation of `Sign` either returns no result having
made exactly one Failed or Pending report, or returns the signing strategy's
bytes as both certificate and CA having made no report. -/
theorem sign_shape (env : Env) (seed : Nat) (cr : CertificateRequest)
    (issuerObj : GenericIssuer) :
    ((Sign env seed cr issuerObj).response = none ∧
      ∃ rep, (Sign env seed cr issuerObj).reports = [rep] ∧ rep ≠ Report.ready) ∨
    (∃ b t pk k, env.signingFn seed t t pk k = Except.ok b ∧
      (Sign env seed cr issuerObj).response = some { certificate := b, ca := b } ∧
      (Sign env seed cr issuerObj).reports = []) := by
  unfold Sign
  repeat' split
  all_goals try (left; exact ⟨rfl, _, rfl, fun hc => Report.noConfusion hc⟩)
  all_goals (right; exact ⟨_, _, _, _, by assumption, rfl, rfl⟩)

/-- C3: every invocation of `signAndReport` (that is, `Sign` composed with
the Ready report the surrounding controller records on success) reports
exactly one outcome: each failure path exactly one Failed or Pending report,
and the success path — with the signed bytes packaged as both certificate
and CA — exactly the Ready report. -/
theorem sign_exactly_one_outcome (env : Env) (seed : Nat) (cr : CertificateRequest)
    (issuerObj : GenericIssuer) :
    (signAndReport env seed cr issuerObj).reports.length = 1 ∧
    (∀ resp, (signAndReport env seed cr issuerObj).response = some resp →
      (signAndReport env seed cr issuerObj).reports = [Report.ready] ∧
      ∃ b t pk k, env.signingFn seed t t pk k = Except.ok b ∧
        resp = { certificate := b, ca := b }) ∧
    ((signAndReport env seed cr issuerObj).response = none →
      ∃ rep, (signAndReport env seed cr issuerObj).reports = [rep] ∧ rep ≠ Report.ready) := by
  rcases sign_shape env seed cr issuerObj with ⟨hn, rep, hr, hne⟩ | ⟨b, t, pk, k, hsig, hs, hr⟩
  · have hA : signAndReport env seed cr issuerObj = Sign env seed cr issuerObj := by
      simp [signAndReport, hn]
    rw [hA, hr]
    refine ⟨rfl, ?_, ?_⟩
    · intro resp hresp
      rw [hn] at hresp
      exact Option.noConfusion hresp
    · intro _
      exact ⟨rep, rfl, hne⟩
  · have hA : signAndReport env seed cr issuerObj =
        { Sign env seed cr issuerObj with
            reports := (Sign env seed cr issuerObj).reports ++ [Report.ready] } := by
      simp [signAndReport, hs]
    rw [hA, hr]
    refine ⟨rfl, ?_, ?_⟩
    · intro resp hresp
      have hr2 : some { certificate := b, ca := b } = some resp := hs.symm.trans hresp
      injection hr2 with hr2
      exact ⟨rfl, b, t, pk, k, hsig, hr2.symm⟩
    · intro hcontra
      exact Option.noConfusion (hs.symm.trans hcontra)

/-- C3 witness: a fully successful concrete invocation, whose single report
is Ready. -/
theorem sign_exactly_one_outcome_witness :
    (signAndReport okEnv 0 cr1 iss1).reports.length = 1 ∧
    (signAndReport okEnv 0 cr1 iss1).reports = [Report.ready] :=
  ⟨(sign_exactly_one_outcome okEnv 0 cr1 iss1).1,
   ((sign_exactly_one_outcome okEnv 0 cr1 iss1).2.1
      (IssueResponse.mk [1,2,3] [1,2,3]) (by decide)).1⟩

end SelfSignedIssuer

namespace SelfSignedIssuer

/-- Helper: once the key has resolved and the template has been built, the
events of the invocation are exactly `warnEvents` of that template, on every
remaining path. -/
theorem sign_events_of_template (env : Env) (seed : Nat) (cr : CertificateRequest)
    (issuerObj : GenericIssuer) (t : Template) (k : String)
    (hs : secretNameOf cr ≠ "")
    (hk : env.secretTLSKey cr.ns (secretNameOf cr) = .ok k)
    (ht : buildTemplate env cr issuerObj = .ok t) :
    (Sign env seed cr issuerObj).events = warnEvents t := by
  simp only [Sign, hs, hk, ht]
  repeat' split
  all_goals simp_all

/-- C5 counterexample: at this input the generated template's subject DN is
empty and the single warning event is emitted, yet the invocation does not
reach a Ready outcome (signing fails and the result is nil), refuting
"empty-subject-DN requests succeed (Ready outcome)". -/
theorem sign_empty_dn_not_ready_cex :
    (Sign emptyDNSignFailEnv 0 cr1 iss1).events = [badConfigEvent] ∧
    (Sign emptyDNSignFailEnv 0 cr1 iss1).response = none := by decide

/-- C5 amended: whenever key resolution and template construction succeed, an
empty subject DN produces exactly one warning event and a non-empty subject
DN produces none; an empty subject DN is never by itself a failure — if every
later step also succeeds, the invocation succeeds. -/
theorem sign_empty_dn_warning (env : Env) (seed : Nat) (cr : CertificateRequest)
    (issuerObj : GenericIssuer) (t : Template) (k : String)
    (hs : secretNameOf cr ≠ "")
    (hk : env.secretTLSKey cr.ns (secretNameOf cr) = .ok k)
    (ht : buildTemplate env cr issuerObj = .ok t) :
    ((Sign env seed cr issuerObj).events =
      if t.subjectString = "" then [badConfigEvent] else []) ∧
    (∀ pk b, env.publicKeyForPrivateKey k = .ok pk →
      env.publicKeysEqual pk t.publicKey = (true, none) →
      env.signingFn seed t t pk k = .ok b →
      (Sign env seed cr issuerObj).response = some { certificate := b, ca := b }) := by
  constructor
  · rw [sign_events_of_template env seed cr issuerObj t k hs hk ht]
    rfl
  · intro pk b hp heq hsig
    rw [sign_eq_success env seed cr issuerObj k t pk b hs hk ht hp heq hsig]

/-- C5 witness: an empty-DN invocation in which everything succeeds (warning
plus success), and a non-empty-DN invocation with no event. -/
theorem sign_empty_dn_warning_witness :
    (Sign emptyDNOkEnv 0 cr1 iss1).events = [badConfigEvent] ∧
    (Sign emptyDNOkEnv 0 cr1 iss1).response = some { certificate := [1,2,3], ca := [1,2,3] } ∧
    (Sign okEnv 0 cr1 iss1).events = [] := by
  have h := sign_empty_dn_warning emptyDNOkEnv 0 cr1 iss1
      (Template.mk "" "pub" ["https://crl.example.com"]) "priv" (by decide) rfl rfl
  have h2 := sign_empty_dn_warning okEnv 0 cr1 iss1
      (Template.mk "CN=example" "pub" ["https://crl.example.com"]) "priv" (by decide) rfl rfl
  refine ⟨?_, h.2 "pub" [1,2,3] rfl rfl rfl, ?_⟩
  · rw [h.1]; decide
  · rw [h2.1]; decide

/-- C6 counterexample: when the comparator reports a mismatch with no
underlying error, the synthesized error is "CSR not signed by referenced
private key", not "request not signed by referenced private key" as claimed. -/
theorem sign_key_match_message_cex :
    (Sign emptyDNMismatchEnv 0 cr1 iss1).reports =
      [Report.failed "ErrorKeyMatch" "Error generating certificate template"
        "CSR not signed by referenced private key"] ∧
    "CSR not signed by referenced private key" ≠
      "request not signed by referenced private key" := by decide

/-- C6 amended: whenever the comparator reports a mismatch or an error, Sign
reports FailedTerminal ErrorKeyMatch and returns a nil result and nil error;
an existing comparator error is preserved, and with no underlying error the
synthesized error is "CSR not signed by referenced private key". -/
theorem sign_key_match_failure (env : Env) (seed : Nat) (cr : CertificateRequest)
    (issuerObj : GenericIssuer) (k : String) (t : Template) (pk : String)
    (hs : secretNameOf cr ≠ "")
    (hk : env.secretTLSKey cr.ns (secretNameOf cr) = .ok k)
    (ht : buildTemplate env cr issuerObj = .ok t)
    (hp : env.publicKeyForPrivateKey k = .ok pk)
    (hmm : (env.publicKeysEqual pk t.publicKey).2.isSome = true ∨
           (env.publicKeysEqual pk t.publicKey).1 = false) :
    (Sign env seed cr issuerObj).response = none ∧
    (Sign env seed cr issuerObj).callerErr = none ∧
    (Sign env seed cr issuerObj).reports =
      [Report.failed "ErrorKeyMatch" "Error generating certificate template"
        ((env.publicKeysEqual pk t.publicKey).2.getD
          "CSR not signed by referenced private key")] := by
  rw [sign_eq_keyMismatch env seed cr issuerObj k t pk hs hk ht hp hmm]
  exact ⟨rfl, rfl, rfl⟩

/-- C6 witness: a concrete mismatch with no comparator error, yielding the
synthesized message. -/
theorem sign_key_match_failure_witness :
    (Sign emptyDNMismatchEnv 0 cr1 iss1).response = none ∧
    (Sign emptyDNMismatchEnv 0 cr1 iss1).reports =
      [Report.failed "ErrorKeyMatch" "Error generating certificate template"
        "CSR not signed by referenced private key"] := by
  have h := sign_key_match_failure emptyDNMismatchEnv 0 cr1 iss1 "priv"
      (Template.mk "" "otherpub" ["https://crl.example.com"]) "pub"
      (by decide) rfl rfl rfl (Or.inr (by decide))
  exact ⟨h.1, by rw [h.2.2]; decide⟩

/-- C8: when the injected signing strategy is deterministic (independent of
the ambient-nondeterminism seed), two invocations of `Sign` on identical
inputs produce identical results — same certificate and CA bytes, same
reports, events, and returned error. -/
theorem sign_deterministic_strategy (env : Env)
    (h : DeterministicSigning env.signingFn)
    (seed seed' : Nat) (cr : CertificateRequest) (issuerObj : GenericIssuer) :
    Sign env seed cr issuerObj = Sign env seed' cr issuerObj := by
  unfold Sign
  simp only [h seed seed']

/-- C8 witness: the constant signing strategy of `okEnv` is deterministic,
and two invocations with different seeds agree. -/
theorem sign_deterministic_strategy_witness :
    Sign okEnv 0 cr1 iss1 = Sign okEnv 1 cr1 iss1 :=
  sign_deterministic_strategy okEnv (fun _ _ _ _ _ _ => rfl) 0 1 cr1 iss1

/-- C9: the empty-DN warning is emitted before public-key derivation,
key-binding validation, and signing, so it can be followed by a terminal
failure: at the first input the warning event is emitted yet the invocation
ends in FailedTerminal ErrorKeyMatch with a nil result, and at the second it
ends in FailedTerminal ErrorSigning — emission does not imply Ready. -/
theorem sign_warning_without_ready :
    (Sign emptyDNMismatchEnv 0 cr1 iss1).events = [badConfigEvent] ∧
    (Sign emptyDNMismatchEnv 0 cr1 iss1).reports =
      [Report.failed "ErrorKeyMatch" "Error generating certificate template"
        "CSR not signed by referenced private key"] ∧
    (Sign emptyDNMismatchEnv 0 cr1 iss1).response = none ∧
    (Sign emptyDNMismatchEnv 0 cr1 iss1).callerErr = none ∧
    (Sign emptyDNSignFailEnv 0 cr1 iss1).events = [badConfigEvent] ∧
    (Sign emptyDNSignFailEnv 0 cr1 iss1).reports =
      [Report.failed "ErrorSigning" "Error signing certificate" "rand failure"] ∧
    (Sign emptyDNSignFailEnv 0 cr1 iss1).response = none := by decide

/-- C10: the FailedTerminal ErrorKeyMatch report carries the message
"Error generating certificate template" — the same message string the
ErrorGenerating report carries — so the two conditions differ only in reason
code and underlying error. -/
theorem keymatch_generating_same_message (env env' : Env) (seed seed' : Nat)
    (cr cr' : CertificateRequest) (issuerObj issuerObj' : GenericIssuer)
    (k : String) (t : Template) (pk : String) (k' : String) (e : GoErr)
    (hs : secretNameOf cr ≠ "")
    (hk : env.secretTLSKey cr.ns (secretNameOf cr) = .ok k)
    (ht : buildTemplate env cr issuerObj = .ok t)
    (hp : env.publicKeyForPrivateKey k = .ok pk)
    (hmm : (env.publicKeysEqual pk t.publicKey).2.isSome = true ∨
           (env.publicKeysEqual pk t.publicKey).1 = false)
    (hs' : secretNameOf cr' ≠ "")
    (hk' : env'.secretTLSKey cr'.ns (secretNameOf cr') = .ok k')
    (ht' : buildTemplate env' cr' issuerObj' = .error e) :
    (Sign env seed cr issuerObj).reports =
      [Report.failed "ErrorKeyMatch" "Error generating certificate template"
        ((env.publicKeysEqual pk t.publicKey).2.getD
          "CSR not signed by referenced private key")] ∧
    (Sign env' seed' cr' issuerObj').reports =
      [Report.failed "ErrorGenerating" "Error generating certificate template" e] := by
  rw [sign_eq_keyMismatch env seed cr issuerObj k t pk hs hk ht hp hmm,
      sign_eq_genFail env' seed' cr' issuerObj' k' e hs' hk' ht']
  exact ⟨rfl, rfl⟩

/-- C10 witness: a concrete key-mismatch invocation and a concrete
template-generation failure, both reported with the same message. -/
theorem keymatch_generating_same_message_witness :
    (Sign emptyDNMismatchEnv 0 cr1 iss1).reports =
      [Report.failed "ErrorKeyMatch" "Error generating certificate template"
        "CSR not signed by referenced private key"] ∧
    (Sign genFailEnv 0 cr1 iss1).reports =
      [Report.failed "ErrorGenerating" "Error generating certificate template" "bad csr"] := by
  have h := keymatch_generating_same_message emptyDNMismatchEnv genFailEnv 0 0 cr1 cr1
      iss1 iss1 "priv" (Template.mk "" "otherpub" ["https://crl.example.com"]) "pub"
      "priv" "bad csr"
      (by decide) rfl rfl rfl (Or.inr (by decide)) (by decide) rfl rfl
  exact ⟨by rw [h.1]; decide, h.2⟩

end SelfSignedIssuer
